import Mathlib

/-!
Shallow embedding of the fee-payment and membership-consistency core of
`src/src/controllers/student.controller.js` (katlicherra_backend_v2).

The MongoDB document store is modelled as explicit lists of documents; each
controller is a pure function from the store (plus its request inputs) to a
pair of the resulting store and either a success payload or an `ApiError`.
A thrown error inside a controller's transaction aborts the session, so every
error branch returns the store unchanged — exactly as the `catch` blocks call
`session.abortTransaction()` before responding.

Fields that an update operator may leave absent on an upserted document
(`finePaid`, `isAdvancePayment`, `lateFine`, `paymentDate`, and the class's
`fee` / `lateFineAmount`) are modelled as `Option`; `lateFineAmount` on a fee
record is a plain `Nat` because `$inc` treats an absent field as `0` and the
code's truthiness test `existingPayment?.lateFineAmount ? 0 : lateFine`
identifies absent with `0`.

JavaScript wall-clock values are passed in explicitly: `now` stands for
`new Date()` and `monthStartAfterNow` for the comparison
`new Date(month + " 1, " + currentYear) > currentDate` in single-month mode.
-/

set_option autoImplicit false

namespace Katlicherra

/-- An `StudentAcademicClass` document (class.model.js): `fee` and
`lateFineAmount` may be unset, `students` is the denormalized back-reference
array of student ids. -/
structure AcademicClass where
  fee : Option Nat
  lateFineAmount : Option Nat
  students : List String
deriving Repr, DecidableEq

/-- A `Student` document (student.model.js), restricted to the fields the
fee/membership core reads or writes.  `studentClass` is required by the
schema; `name` is required; `grade`, `parentContact`, `parentName` are
optional.  The profile scalars (dob, aadhar, …) never influence the control
flow of the modelled controllers and are elided. -/
structure Student where
  id : String
  email : String
  name : String
  grade : Option String
  parentContact : Option String
  parentName : Option String
  studentClass : String
  subjects : List String
deriving Repr, DecidableEq

/-- A `Subject` document, restricted to its `students` back-reference array. -/
structure SubjectDoc where
  students : List String
deriving Repr, DecidableEq

/-- A `FeePayment` document.  `student`/`month` form the record's unique key.
`status` is a plain string ("paid" / "not paid") because the controllers
store the caller-supplied status verbatim. -/
structure FeeRecord where
  student : String
  month : String
  status : String
  baseAmount : Option Nat
  lateFineAmount : Nat
  lateFine : Option Bool
  finePaid : Option Bool
  isAdvancePayment : Option Bool
  paymentDate : Option Nat
deriving Repr, DecidableEq

/-- The document store: one collection per model. `classes` and `subjects`
are keyed association lists (id, document). -/
structure DB where
  students : List Student
  classes : List (String × AcademicClass)
  subjects : List (String × SubjectDoc)
  feePayments : List FeeRecord
deriving Repr, DecidableEq

/-- `ApiError(code, message)` from utils/ApiError.js: the numeric status code
and human message of a thrown error. -/
structure ApiError where
  code : Nat
  message : String
deriving Repr, DecidableEq

/-- `Student.findById` -/
def findStudent (db : DB) (sid : String) : Option Student :=
  db.students.find? (fun s => s.id == sid)

/-- `StudentAcademicClass.findById` -/
def findClass (db : DB) (cid : String) : Option AcademicClass :=
  (db.classes.find? (fun p => p.1 == cid)).map (fun p => p.2)

/-- `FeePayment.findOne({ student, month })` -/
def findFee (db : DB) (sid m : String) : Option FeeRecord :=
  db.feePayments.find? (fun r => r.student == sid && r.month == m)

/-- Replace the first fee record keyed (sid, m), or append `r` when no record
matches — the write half of `findOneAndUpdate(..., { upsert: true })` under
the store's uniqueness constraint on (student, month). -/
def setFee : List FeeRecord → String → String → FeeRecord → List FeeRecord
  | [], _, _, r => [r]
  | x :: xs, sid, m, r =>
    if x.student == sid && x.month == m then r :: xs
    else x :: setFee xs sid m r

def putFee (db : DB) (sid m : String) (r : FeeRecord) : DB :=
  { db with feePayments := setFee db.feePayments sid m r }

/-- Replace the class document with id `cid`. -/
def setClass : List (String × AcademicClass) → String → AcademicClass →
    List (String × AcademicClass)
  | [], _, _ => []
  | x :: xs, cid, c => if x.1 == cid then (cid, c) :: xs else x :: setClass xs cid c

def putClass (db : DB) (cid : String) (c : AcademicClass) : DB :=
  { db with classes := setClass db.classes cid c }

/-- Replace the student document with id `sid`. -/
def setStudent : List Student → String → Student → List Student
  | [], _, _ => []
  | x :: xs, sid, s => if x.id == sid then s :: xs else x :: setStudent xs sid s

def putStudent (db : DB) (sid : String) (s : Student) : DB :=
  { db with students := setStudent db.students sid s }

/-- line 612: `const baseFeeAmount = studentClass.fee || 0;` — JavaScript `||`
falls back on a missing (or zero) fee; for a natural-number fee this is
exactly `getD 0`. -/
def markBaseFee (cls : AcademicClass) : Nat := cls.fee.getD 0

/-- line 613: `const lateFineAmount = studentClass.lateFineAmount || 0;`
(computed by MARK_FEE_PAYMENT_STATUS but never used afterwards). -/
def markLateFine (cls : AcademicClass) : Nat := cls.lateFineAmount.getD 0

/-- line 776: `const classFee = studentClass?.fee ?? 1000;` — nullish
coalescing: only a missing fee falls back to 1000. -/
def imposeClassFee (cls : AcademicClass) : Nat := cls.fee.getD 1000

/-- line 777: `const lateFine = studentClass?.lateFineAmount ?? 500;` -/
def imposeLateFineAmt (cls : AcademicClass) : Nat := cls.lateFineAmount.getD 500

/-- The per-month update object of the bulk branch of
MARK_FEE_PAYMENT_STATUS (lines 626-656), applied to the existing record
(update) or materialised as a fresh document (upsert insert):
`$set { status, paymentDate, lateFine: false, finePaid: true }`,
plus `$set { isAdvancePayment: true }` when the caller passed the flag;
`$setOnInsert { student, month, baseAmount }`. -/
def markBulkUpdate (sid m status : String) (baseFee : Nat) (isAdv : Bool)
    (now : Nat) (existing : Option FeeRecord) : FeeRecord :=
  match existing with
  | some r =>
    { r with
      status := status
      paymentDate := some now
      lateFine := some false
      finePaid := some true
      isAdvancePayment := if isAdv then some true else r.isAdvancePayment }
  | none =>
    { student := sid
      month := m
      status := status
      baseAmount := some baseFee
      lateFineAmount := 0
      lateFine := some false
      finePaid := some true
      isAdvancePayment := if isAdv then some true else none
      paymentDate := some now }

/-- The update object of the single-month branch of MARK_FEE_PAYMENT_STATUS
(lines 683-708): `finePaid` is set only when `status === "paid"`, and
`isAdvancePayment` is set when the caller passed the flag OR the month's
first-of-month date lies after the current date (`isFutureMonth`). -/
def markSingleUpdate (sid m status : String) (baseFee : Nat)
    (isFutureMonth : Bool) (now : Nat) (existing : Option FeeRecord) :
    FeeRecord :=
  match existing with
  | some r =>
    { r with
      status := status
      paymentDate := some now
      lateFine := some false
      finePaid := if status == "paid" then some true else r.finePaid
      isAdvancePayment := if isFutureMonth then some true else r.isAdvancePayment }
  | none =>
    { student := sid
      month := m
      status := status
      baseAmount := some baseFee
      lateFineAmount := 0
      lateFine := some false
      finePaid := if status == "paid" then some true else none
      isAdvancePayment := if isFutureMonth then some true else none
      paymentDate := some now }

/-- `FeePayment.bulkWrite` on the ordered list of per-month upserts built by
the bulk branch: each `updateOne { filter: { student, month }, upsert }` is
applied in sequence against the store produced by the previous one. -/
def applyBulk (sid status : String) (baseFee : Nat) (isAdv : Bool) (now : Nat) :
    List String → DB → DB
  | [], db => db
  | m :: ms, db =>
    applyBulk sid status baseFee isAdv now ms
      (putFee db sid m (markBulkUpdate sid m status baseFee isAdv now (findFee db sid m)))

/-- The `months` request field: a string (single mode), an array (bulk mode),
or anything else (rejected with 400). -/
inductive MonthsArg
  | single (m : String)
  | bulk (ms : List String)
  | other
deriving Repr, DecidableEq

/-- Success payload of MARK_FEE_PAYMENT_STATUS: the bulkWrite summary in bulk
mode (its contents are never re-read by the core), or the updated record in
single mode. -/
inductive MarkResult
  | bulkSummary
  | singleRecord (r : FeeRecord)
deriving Repr, DecidableEq

/-- MARK_FEE_PAYMENT_STATUS (lines 592-750).  `now` stands for `new Date()`;
`monthStartAfterNow m` stands for the comparison
`new Date(m + " 1, " + currentYear) > currentDate`.  (The bulk branch also
computes `currentMonth`/`currentYear` at lines 619-622 but never uses them.)
Every error branch precedes the commit, so it returns the store unchanged. -/
def MARK_FEE_PAYMENT_STATUS (db : DB) (student : String) (months : MonthsArg)
    (status : String) (isAdvancePayment : Bool) (now : Nat)
    (monthStartAfterNow : String → Bool) : DB × Except ApiError MarkResult :=
  match findStudent db student with
  | none => (db, .error ⟨404, "Student not found."⟩)
  | some studentExists =>
    match findClass db studentExists.studentClass with
    | none => (db, .error ⟨404, "Student class not found."⟩)
    | some studentClass =>
      let baseFeeAmount := markBaseFee studentClass
      match months with
      | .bulk ms =>
        (applyBulk student status baseFeeAmount isAdvancePayment now ms db,
         .ok .bulkSummary)
      | .single month =>
        let isFutureMonth := isAdvancePayment || monthStartAfterNow month
        let feePayment :=
          markSingleUpdate student month status baseFeeAmount isFutureMonth now
            (findFee db student month)
        (putFee db student month feePayment, .ok (.singleRecord feePayment))
      | .other => (db, .error ⟨400, "Months must be a string or an array"⟩)

/-- The update object of IMPOSE_LATE_FINE (lines 795-814), applied to the
existing record or materialised on insert:
`$setOnInsert { student, month, status: "not paid", baseAmount: classFee,
isAdvancePayment: false }`; `$set { lateFine: true }`;
`$inc { lateFineAmount: existingPayment?.lateFineAmount ? 0 : lateFine }`;
and `$set { finePaid: false }` unless the existing document already has
`finePaid === false`. -/
def imposeUpdate (sid m : String) (classFee lateFineAmt : Nat)
    (existing : Option FeeRecord) : FeeRecord :=
  let inc : Nat :=
    match existing with
    | some r => if r.lateFineAmount ≠ 0 then 0 else lateFineAmt
    | none => lateFineAmt
  match existing with
  | some r =>
    { r with
      lateFine := some true
      lateFineAmount := r.lateFineAmount + inc
      finePaid := if r.finePaid ≠ some false then some false else r.finePaid }
  | none =>
    { student := sid
      month := m
      status := "not paid"
      baseAmount := some classFee
      lateFineAmount := inc
      lateFine := some true
      finePaid := some false
      isAdvancePayment := some false
      paymentDate := none }

/-- IMPOSE_LATE_FINE (lines 753-875).  `Student.findById(...).populate("studentClass")`
yields a null `studentClass` exactly when the referenced class document is
missing, so the `!student || !student.studentClass` guard and the subsequent
`StudentAcademicClass.findById(student.studentClass._id)` collapse into one
class lookup.  The dead guard at line 779 (`classFee === undefined` after the
`??` defaults) and the impossible `!payment` check after an upsert with
`new: true` (line 831) are unreachable and not reproduced. -/
def IMPOSE_LATE_FINE (db : DB) (studentId month : String) :
    DB × Except ApiError FeeRecord :=
  if studentId == "" || month == "" then
    (db, .error ⟨400, "Student ID and month are required"⟩)
  else
    match findStudent db studentId with
    | none => (db, .error ⟨404, "Student or associated class not found"⟩)
    | some student =>
      match findClass db student.studentClass with
      | none => (db, .error ⟨404, "Student or associated class not found"⟩)
      | some studentClass =>
        let classFee := imposeClassFee studentClass
        let lateFine := imposeLateFineAmt studentClass
        let existingPayment := findFee db studentId month
        if (match existingPayment with
            | some r => r.status == "paid"
            | none => false) then
          (db, .error ⟨400, "Cannot impose fine on already paid fee"⟩)
        else
          let payment := imposeUpdate studentId month classFee lateFine existingPayment
          (putFee db studentId month payment, .ok payment)

/-- The `req.body` of UPDATE_STUDENT; an absent (or falsy) field is `none`.
The source also destructures `section`, but the Student schema has no such
path, so mongoose strict mode drops it from the `$set`; it only participates
in the "No fields to update" guard (modelled by `sectionLabel`). -/
structure UpdateStudentBody where
  name : Option String
  studentClass : Option String
  sectionLabel : Option String
  grade : Option String
  subjects : Option (List String)
  parentContact : Option String
  parentName : Option String
deriving Repr, DecidableEq

/-- `Subject.updateMany({ _id: { $in: ids } }, { $addToSet: { students: sid } })` -/
def addStudentToSubjects (db : DB) (ids : List String) (sid : String) : DB :=
  { db with
    subjects := db.subjects.map (fun p =>
      if ids.contains p.1 then
        if p.2.students.contains sid then p
        else (p.1, { p.2 with students := p.2.students ++ [sid] })
      else p) }

/-- `Subject.updateMany({ _id: { $in: ids } }, { $pull: { students: sid } })` -/
def pullStudentFromSubjects (db : DB) (ids : List String) (sid : String) : DB :=
  { db with
    subjects := db.subjects.map (fun p =>
      if ids.contains p.1 then
        (p.1, { p.2 with students := p.2.students.filter (fun x => x ≠ sid) })
      else p) }

/-- The `$set` of `Student.findByIdAndUpdate` at lines 517-531: mongoose
strips the `undefined` entries, so only the provided fields are written
(`section` is additionally dropped by strict mode, having no schema path). -/
def updatedStudentDoc (existingStudent : Student) (b : UpdateStudentBody) :
    Student :=
  { existingStudent with
    name := b.name.getD existingStudent.name
    studentClass := b.studentClass.getD existingStudent.studentClass
    grade := match b.grade with
      | some v => some v
      | none => existingStudent.grade
    parentContact := match b.parentContact with
      | some v => some v
      | none => existingStudent.parentContact
    parentName := match b.parentName with
      | some v => some v
      | none => existingStudent.parentName
    subjects := b.subjects.getD existingStudent.subjects }

/-- Lines 482-531 of UPDATE_STUDENT: the subjects diff/patch and the final
`findByIdAndUpdate` on the student (which always finds the student fetched
in the same session, so its `!updatedStudent` 404 branch is unreachable). -/
def updateStudentRest (db : DB) (studentId : String)
    (existingStudent : Student) (b : UpdateStudentBody) :
    DB × Except ApiError Student :=
  let db1 :=
    match b.subjects with
    | some newSubjects =>
      let existingSubjects := existingStudent.subjects
      let subjectsToAdd := newSubjects.filter
        (fun sub => !(existingSubjects.contains sub))
      let subjectsToRemove := existingSubjects.filter
        (fun sub => !(newSubjects.contains sub))
      let dbA :=
        if subjectsToAdd ≠ [] then addStudentToSubjects db subjectsToAdd studentId
        else db
      if subjectsToRemove ≠ [] then
        pullStudentFromSubjects dbA subjectsToRemove studentId
      else dbA
    | none => db
  let updatedStudent := updatedStudentDoc existingStudent b
  (putStudent db1 studentId updatedStudent, .ok updatedStudent)

/-- UPDATE_STUDENT (lines 425-557).  When the request carries a
`studentClass` different from the student's current class, the handler
evaluates `Class.findByIdAndUpdate` (lines 467 and 475) — but the module
never imports or defines an identifier `Class` (the class model is imported
as `StudentAcademicClass`), so this branch throws a ReferenceError
("Class is not defined"); the catch block aborts the transaction and, since
a ReferenceError has no `code` property, `error.code || 500` responds 500.
No write survives. -/
def UPDATE_STUDENT (db : DB) (studentId : String) (b : UpdateStudentBody) :
    DB × Except ApiError Student :=
  if b.name.isNone && b.studentClass.isNone && b.sectionLabel.isNone &&
     b.grade.isNone && b.subjects.isNone && b.parentContact.isNone &&
     b.parentName.isNone then
    (db, .error ⟨400, "No fields to update"⟩)
  else
    match findStudent db studentId with
    | none => (db, .error ⟨404, "Student not found."⟩)
    | some existingStudent =>
      match b.studentClass with
      | some newClass =>
        if newClass ≠ existingStudent.studentClass then
          (db, .error ⟨500, "Class is not defined"⟩)
        else updateStudentRest db studentId existingStudent b
      | none => updateStudentRest db studentId existingStudent b

/-- The `Student.create` document of REGISTER_STUDENT: the new student with
the validated class reference and no subjects yet. -/
def newStudentDoc (newId name email cid : String) : Student :=
  { id := newId
    email := email
    name := name
    grade := none
    parentContact := none
    parentName := none
    studentClass := cid
    subjects := [] }

/-- REGISTER_STUDENT (lines 28-162), restricted to the fields that drive the
control flow and the membership write: check email uniqueness, validate the
class id, create the student, re-fetch it, and push the new id onto the
class's `students` array (an array `push`, not `$addToSet`).  The profile
scalars and the optional Cloudinary upload (external collaborator) do not
affect the store and are elided. -/
def REGISTER_STUDENT (db : DB) (newId name email studentClass : String) :
    DB × Except ApiError Student :=
  match db.students.find? (fun s => s.email == email) with
  | some _ => (db, .error ⟨400, "Student already exists"⟩)
  | none =>
    match findClass db studentClass with
    | none => (db, .error ⟨400, "Invalid class assigned to student"⟩)
    | some classExists =>
      let db1 := { db with
        students := db.students ++ [newStudentDoc newId name email studentClass] }
      match findStudent db1 newId with
      | none => (db, .error ⟨500, "Uh oh! Student registration failed"⟩)
      | some createdStudent =>
        let db2 := putClass db1 studentClass
          { classExists with students := classExists.students ++ [newId] }
        (db2, .ok createdStudent)

/-- Whether a controller result is the error (aborted-transaction) outcome. -/
def isErr {α : Type} : Except ApiError α → Bool
  | .error _ => true
  | .ok _ => false

/-! Concrete documents used to evaluate the theorems on closed inputs. -/

def classC1 : AcademicClass :=
  { fee := some 500, lateFineAmount := some 100, students := ["s1"] }

def classC2 : AcademicClass :=
  { fee := some 300, lateFineAmount := some 50, students := [] }

/-- A class whose fee policy fields are unset. -/
def bareClass : AcademicClass :=
  { fee := none, lateFineAmount := none, students := [] }

def studentS1 : Student :=
  { id := "s1", email := "s1@example.com", name := "Asha", grade := none,
    parentContact := none, parentName := none, studentClass := "c1",
    subjects := [] }

/-- A student whose `studentClass` reference does not resolve to any class
document in the store. -/
def orphanStudent : Student :=
  { id := "s9", email := "s9@example.com", name := "Noor", grade := none,
    parentContact := none, parentName := none, studentClass := "ghost",
    subjects := [] }

/-- One student, one class, no fee records. -/
def baseDB : DB :=
  { students := [studentS1], classes := [("c1", classC1)], subjects := [],
    feePayments := [] }

/-- Two classes, so that a class reassignment request is well-formed. -/
def twoClassDB : DB :=
  { students := [studentS1], classes := [("c1", classC1), ("c2", classC2)],
    subjects := [], feePayments := [] }

/-- A FeePayment already settled for ("s1", "March"). -/
def paidMarchRec : FeeRecord :=
  { student := "s1", month := "March", status := "paid",
    baseAmount := some 500, lateFineAmount := 0, lateFine := some false,
    finePaid := some true, isAdvancePayment := some false,
    paymentDate := some 5 }

def paidMarchDB : DB :=
  { baseDB with feePayments := [paidMarchRec] }

/-- An unpaid FeePayment for ("s1", "March") with no fine yet. -/
def unpaidMarchRec : FeeRecord :=
  { student := "s1", month := "March", status := "not paid",
    baseAmount := some 500, lateFineAmount := 0, lateFine := none,
    finePaid := none, isAdvancePayment := some false, paymentDate := none }

def unpaidMarchDB : DB :=
  { baseDB with feePayments := [unpaidMarchRec] }

/-- A student whose class document is missing from the store. -/
def orphanDB : DB :=
  { students := [orphanStudent], classes := [], subjects := [],
    feePayments := [] }

/-! ## Store lemmas -/

/-- A record returned by `findFee db sid m` carries the looked-up key. -/
theorem findFee_keys {db : DB} {sid m : String} {r : FeeRecord}
    (h : findFee db sid m = some r) : r.student = sid ∧ r.month = m := by
  unfold findFee at h
  have hp := List.find?_some h
  simpa [Bool.and_eq_true] using hp

theorem find?_setFee (l : List FeeRecord) (sid m : String) (r : FeeRecord)
    (h1 : r.student = sid) (h2 : r.month = m) :
    (setFee l sid m r).find? (fun x => x.student == sid && x.month == m)
      = some r := by
  induction l with
  | nil => simp [setFee, h1, h2]
  | cons x xs ih =>
    by_cases hx : (x.student == sid && x.month == m) = true
    · simp [setFee, hx, h1, h2]
    · have hx' : (x.student == sid && x.month == m) = false := by
        simpa using hx
      simp [setFee, hx', List.find?_cons, ih]

/-- After the upsert write, the looked-up record is the written one. -/
theorem findFee_putFee_self (db : DB) (sid m : String) (r : FeeRecord)
    (h1 : r.student = sid) (h2 : r.month = m) :
    findFee (putFee db sid m r) sid m = some r := by
  unfold findFee putFee
  exact find?_setFee db.feePayments sid m r h1 h2

theorem findStudent_putFee (db : DB) (sid m x : String) (r : FeeRecord) :
    findStudent (putFee db sid m r) x = findStudent db x := rfl

theorem findClass_putFee (db : DB) (sid m c : String) (r : FeeRecord) :
    findClass (putFee db sid m r) c = findClass db c := rfl

/-! ## Characterisation of the successful runs -/

/-- The written record of `imposeUpdate` keeps the (student, month) key. -/
theorem imposeUpdate_keys (sid m : String) (fee lf : Nat)
    (existing : Option FeeRecord)
    (hk : ∀ r, existing = some r → r.student = sid ∧ r.month = m) :
    (imposeUpdate sid m fee lf existing).student = sid ∧
      (imposeUpdate sid m fee lf existing).month = m := by
  cases existing with
  | none => simp [imposeUpdate]
  | some r =>
    have h := hk r rfl
    simp [imposeUpdate, h.1, h.2]

/-- `imposeUpdate` keeps (update) or seeds (insert) the record status. -/
theorem imposeUpdate_status (sid m : String) (fee lf : Nat)
    (existing : Option FeeRecord) :
    (imposeUpdate sid m fee lf existing).status
      = (match existing with
         | some r => r.status
         | none => "not paid") := by
  cases existing <;> simp [imposeUpdate]

/-- A second `imposeUpdate` in the same unpaid state does not change the
accumulated fine amount (the `$inc` is 0 whenever the record already holds a
nonzero `lateFineAmount`, and increments by 0 otherwise). -/
theorem imposeUpdate_twice_amount (sid m : String) (fee lf : Nat)
    (existing : Option FeeRecord) :
    (imposeUpdate sid m fee lf
        (some (imposeUpdate sid m fee lf existing))).lateFineAmount
      = (imposeUpdate sid m fee lf existing).lateFineAmount := by
  cases existing with
  | none =>
    by_cases hlf : lf = 0 <;> simp [imposeUpdate, hlf]
  | some r =>
    by_cases h : r.lateFineAmount = 0
    · by_cases hlf : lf = 0 <;> simp [imposeUpdate, h, hlf]
    · simp [imposeUpdate, h]

/-- Successful run of IMPOSE_LATE_FINE: with a resolvable student and class
and no paid record for the month, the controller upserts exactly the
`imposeUpdate` document and returns it. -/
theorem impose_run (db : DB) (sid m : String) (hsid : sid ≠ "") (hm : m ≠ "")
    (st : Student) (hst : findStudent db sid = some st)
    (cls : AcademicClass) (hcls : findClass db st.studentClass = some cls)
    (hnp : ∀ r, findFee db sid m = some r → r.status ≠ "paid") :
    IMPOSE_LATE_FINE db sid m =
      (putFee db sid m
        (imposeUpdate sid m (imposeClassFee cls) (imposeLateFineAmt cls)
          (findFee db sid m)),
       .ok (imposeUpdate sid m (imposeClassFee cls) (imposeLateFineAmt cls)
          (findFee db sid m))) := by
  have h1 : (sid == "" || m == "") = false := by simp [hsid, hm]
  have hpay : (match findFee db sid m with
      | some r => r.status == "paid"
      | none => false) = false := by
    cases hf : findFee db sid m with
    | none => rfl
    | some r =>
      simpa using hnp r hf
  unfold IMPOSE_LATE_FINE
  simp [h1, hst, hcls, hpay]

/-- Successful run of the single-month branch of MARK_FEE_PAYMENT_STATUS. -/
theorem mark_single_run (db : DB) (sid m status : String) (isAdv : Bool)
    (now : Nat) (oracle : String → Bool)
    (st : Student) (hst : findStudent db sid = some st)
    (cls : AcademicClass) (hcls : findClass db st.studentClass = some cls) :
    MARK_FEE_PAYMENT_STATUS db sid (.single m) status isAdv now oracle =
      (putFee db sid m
        (markSingleUpdate sid m status (markBaseFee cls) (isAdv || oracle m)
          now (findFee db sid m)),
       .ok (.singleRecord
        (markSingleUpdate sid m status (markBaseFee cls) (isAdv || oracle m)
          now (findFee db sid m)))) := by
  unfold MARK_FEE_PAYMENT_STATUS
  simp [hst, hcls]

/-- Run of the bulk branch of MARK_FEE_PAYMENT_STATUS. -/
theorem mark_bulk_run (db : DB) (sid status : String) (ms : List String)
    (isAdv : Bool) (now : Nat) (oracle : String → Bool)
    (st : Student) (hst : findStudent db sid = some st)
    (cls : AcademicClass) (hcls : findClass db st.studentClass = some cls) :
    MARK_FEE_PAYMENT_STATUS db sid (.bulk ms) status isAdv now oracle =
      (applyBulk sid status (markBaseFee cls) isAdv now ms db,
       .ok .bulkSummary) := by
  unfold MARK_FEE_PAYMENT_STATUS
  simp [hst, hcls]

/-- The written record of `markSingleUpdate` keeps the (student, month) key. -/
theorem markSingleUpdate_keys (sid m status : String) (baseFee : Nat)
    (fut : Bool) (now : Nat) (existing : Option FeeRecord)
    (hk : ∀ r, existing = some r → r.student = sid ∧ r.month = m) :
    (markSingleUpdate sid m status baseFee fut now existing).student = sid ∧
      (markSingleUpdate sid m status baseFee fut now existing).month = m := by
  cases existing with
  | none => simp [markSingleUpdate]
  | some r =>
    have h := hk r rfl
    simp [markSingleUpdate, h.1, h.2]

/-- The tail of UPDATE_STUDENT (subjects patch + `$set`) always succeeds:
its only error branches were handled earlier. -/
theorem updateStudentRest_snd (db : DB) (sid : String) (st : Student)
    (b : UpdateStudentBody) :
    (updateStudentRest db sid st b).2 = .ok (updatedStudentDoc st b) := rfl

/-! ## Claim theorems -/

/-- C4: for every student and month whose existing FeePayment record has
status "paid", IMPOSE_LATE_FINE fails with the 400 "Cannot impose fine on
already paid fee" error and returns the store unchanged — a settled month
cannot be fined. -/
theorem imposeLateFine_rejects_paid (db : DB) (sid m : String)
    (hsid : sid ≠ "") (hm : m ≠ "")
    (st : Student) (hst : findStudent db sid = some st)
    (cls : AcademicClass) (hcls : findClass db st.studentClass = some cls)
    (r : FeeRecord) (hrec : findFee db sid m = some r)
    (hpaid : r.status = "paid") :
    IMPOSE_LATE_FINE db sid m
      = (db, .error ⟨400, "Cannot impose fine on already paid fee"⟩) := by
  have h1 : (sid == "" || m == "") = false := by simp [hsid, hm]
  unfold IMPOSE_LATE_FINE
  simp [h1, hst, hcls, hrec, hpaid]

theorem imposeLateFine_rejects_paid_witness :
    IMPOSE_LATE_FINE paidMarchDB "s1" "March"
      = (paidMarchDB, .error ⟨400, "Cannot impose fine on already paid fee"⟩) :=
  imposeLateFine_rejects_paid paidMarchDB "s1" "March" (by decide) (by decide)
    studentS1 (by decide) classC1 (by decide) paidMarchRec (by decide) rfl

/-- C10: for every student that exists but whose `studentClass` reference
does not resolve to a class document, MARK_FEE_PAYMENT_STATUS fails with a
404 "Student class not found." error before any write (for every months
argument), even though the spec states only that the student must exist. -/
theorem markPayment_missing_class (db : DB) (sid status : String)
    (months : MonthsArg) (isAdv : Bool) (now : Nat) (oracle : String → Bool)
    (st : Student) (hst : findStudent db sid = some st)
    (hcls : findClass db st.studentClass = none) :
    MARK_FEE_PAYMENT_STATUS db sid months status isAdv now oracle
      = (db, .error ⟨404, "Student class not found."⟩) := by
  unfold MARK_FEE_PAYMENT_STATUS
  simp [hst, hcls]

theorem markPayment_missing_class_witness :
    MARK_FEE_PAYMENT_STATUS orphanDB "s9" (.single "March") "paid" false 0
        (fun _ => false)
      = (orphanDB, .error ⟨404, "Student class not found."⟩) :=
  markPayment_missing_class orphanDB "s9" "paid" (.single "March") false 0
    (fun _ => false) orphanStudent (by decide) (by decide)

/-- C7: the fee policy lookup diverges by path — for a class document that
lacks `fee` or `lateFineAmount`, the payment-marking path resolves the
missing base fee to 0 (and the late-fine amount to 0), while the
fine-imposition path resolves a missing fee to 1000 and a missing late-fine
amount to 500. -/
theorem feePolicy_defaults_diverge (cls : AcademicClass) :
    (cls.fee = none → markBaseFee cls = 0 ∧ imposeClassFee cls = 1000) ∧
    (cls.lateFineAmount = none →
      markLateFine cls = 0 ∧ imposeLateFineAmt cls = 500) := by
  constructor <;> intro h <;>
    simp [markBaseFee, imposeClassFee, markLateFine, imposeLateFineAmt, h]

theorem feePolicy_defaults_diverge_witness :
    markBaseFee bareClass = 0 ∧ imposeClassFee bareClass = 1000 ∧
    markLateFine bareClass = 0 ∧ imposeLateFineAmt bareClass = 500 :=
  ⟨((feePolicy_defaults_diverge bareClass).1 rfl).1,
   ((feePolicy_defaults_diverge bareClass).1 rfl).2,
   ((feePolicy_defaults_diverge bareClass).2 rfl).1,
   ((feePolicy_defaults_diverge bareClass).2 rfl).2⟩

/-- C5: for a student whose class has fee 500 and lateFineAmount 100,
IMPOSE_LATE_FINE on a month with no existing FeePayment record creates a
record with baseAmount 500, lateFineAmount 100, lateFine true,
finePaid false, status "not paid", and isAdvancePayment false seeded on
insert. -/
theorem imposeLateFine_creates_seeded_record (db : DB) (sid m : String)
    (hsid : sid ≠ "") (hm : m ≠ "")
    (st : Student) (hst : findStudent db sid = some st)
    (cls : AcademicClass) (hcls : findClass db st.studentClass = some cls)
    (hfee : cls.fee = some 500) (hlf : cls.lateFineAmount = some 100)
    (hnone : findFee db sid m = none) :
    ∃ r, (IMPOSE_LATE_FINE db sid m).2 = .ok r ∧
      findFee (IMPOSE_LATE_FINE db sid m).1 sid m = some r ∧
      r.baseAmount = some 500 ∧ r.lateFineAmount = 100 ∧
      r.lateFine = some true ∧ r.finePaid = some false ∧
      r.status = "not paid" ∧ r.isAdvancePayment = some false := by
  have hnp : ∀ r, findFee db sid m = some r → r.status ≠ "paid" := by
    intro r h
    rw [hnone] at h
    cases h
  have hrun := impose_run db sid m hsid hm st hst cls hcls hnp
  rw [hrun, hnone]
  refine ⟨imposeUpdate sid m (imposeClassFee cls) (imposeLateFineAmt cls) none,
    rfl,
    findFee_putFee_self db sid m _ (by simp [imposeUpdate])
      (by simp [imposeUpdate]),
    by simp [imposeUpdate, imposeClassFee, hfee],
    by simp [imposeUpdate, imposeLateFineAmt, hlf],
    by simp [imposeUpdate], by simp [imposeUpdate],
    by simp [imposeUpdate], by simp [imposeUpdate]⟩

theorem imposeLateFine_creates_seeded_record_witness :
    (findFee (IMPOSE_LATE_FINE baseDB "s1" "March").1 "s1" "March").map
        (fun r => r.baseAmount)
      = some (some 500) := by
  obtain ⟨r, h1, h2, h3, -, -, -, -, -⟩ :=
    imposeLateFine_creates_seeded_record baseDB "s1" "March" (by decide)
      (by decide) studentS1 (by decide) classC1 (by decide) rfl rfl rfl
  rw [h2]
  simp [h3]

/-- C9: on an existing (unpaid) record, IMPOSE_LATE_FINE leaves the status,
baseAmount, month, student, isAdvancePayment and paymentDate fields
unchanged: those fields appear only in the insert-only `$setOnInsert` part
of the upsert, so an update touches only lateFine, finePaid and
(conditionally) lateFineAmount. -/
theorem imposeLateFine_frame (db : DB) (sid m : String)
    (hsid : sid ≠ "") (hm : m ≠ "")
    (st : Student) (hst : findStudent db sid = some st)
    (cls : AcademicClass) (hcls : findClass db st.studentClass = some cls)
    (r : FeeRecord) (hrec : findFee db sid m = some r)
    (hnp : r.status ≠ "paid") :
    ∃ r', (IMPOSE_LATE_FINE db sid m).2 = .ok r' ∧
      findFee (IMPOSE_LATE_FINE db sid m).1 sid m = some r' ∧
      r'.status = r.status ∧ r'.baseAmount = r.baseAmount ∧
      r'.month = r.month ∧ r'.student = r.student ∧
      r'.isAdvancePayment = r.isAdvancePayment ∧
      r'.paymentDate = r.paymentDate := by
  have hnp' : ∀ r0, findFee db sid m = some r0 → r0.status ≠ "paid" := by
    intro r0 h0
    rw [hrec] at h0
    cases h0
    exact hnp
  have hrun := impose_run db sid m hsid hm st hst cls hcls hnp'
  have hkeys := findFee_keys hrec
  rw [hrun, hrec]
  refine ⟨imposeUpdate sid m (imposeClassFee cls) (imposeLateFineAmt cls)
      (some r),
    rfl,
    findFee_putFee_self db sid m _ (by simp [imposeUpdate, hkeys.1])
      (by simp [imposeUpdate, hkeys.2]),
    by simp [imposeUpdate], by simp [imposeUpdate], by simp [imposeUpdate],
    by simp [imposeUpdate], by simp [imposeUpdate], by simp [imposeUpdate]⟩

theorem imposeLateFine_frame_witness :
    isErr (IMPOSE_LATE_FINE unpaidMarchDB "s1" "March").2 = false := by
  obtain ⟨r', h1, -⟩ :=
    imposeLateFine_frame unpaidMarchDB "s1" "March" (by decide) (by decide)
      studentS1 (by decide) classC1 (by decide) unpaidMarchRec (by decide)
      (by decide)
  rw [h1]
  rfl

/-- C2: after a single-month MARK_FEE_PAYMENT_STATUS with status "paid", the
record for (student, month) has status "paid", lateFine false and
finePaid true, and its baseAmount equals the class fee at the record's first
write: seeded from `markBaseFee` on insert, and never overwritten on an
update by either the single-month or the bulk per-month upsert. -/
theorem markPayment_single_paid (db : DB) (sid m : String) (isAdv : Bool)
    (now : Nat) (oracle : String → Bool)
    (st : Student) (hst : findStudent db sid = some st)
    (cls : AcademicClass) (hcls : findClass db st.studentClass = some cls) :
    (∃ r, (MARK_FEE_PAYMENT_STATUS db sid (.single m) "paid" isAdv now
          oracle).2 = .ok (.singleRecord r) ∧
      findFee (MARK_FEE_PAYMENT_STATUS db sid (.single m) "paid" isAdv now
          oracle).1 sid m = some r ∧
      r.status = "paid" ∧ r.lateFine = some false ∧ r.finePaid = some true ∧
      r.baseAmount = (match findFee db sid m with
        | some r0 => r0.baseAmount
        | none => some (markBaseFee cls))) ∧
    (∀ (status2 : String) (baseFee : Nat) (adv2 fut2 : Bool) (now2 : Nat)
        (r0 : FeeRecord),
      (markSingleUpdate sid m status2 baseFee fut2 now2 (some r0)).baseAmount
          = r0.baseAmount ∧
      (markBulkUpdate sid m status2 baseFee adv2 now2 (some r0)).baseAmount
          = r0.baseAmount) := by
  constructor
  · have hrun := mark_single_run db sid m "paid" isAdv now oracle st hst cls hcls
    have hkeys := markSingleUpdate_keys sid m "paid" (markBaseFee cls)
      (isAdv || oracle m) now (findFee db sid m) (fun r h => findFee_keys h)
    rw [hrun]
    refine ⟨markSingleUpdate sid m "paid" (markBaseFee cls) (isAdv || oracle m)
        now (findFee db sid m),
      rfl,
      findFee_putFee_self db sid m _ hkeys.1 hkeys.2, ?_, ?_, ?_, ?_⟩
    · cases hf : findFee db sid m <;> simp [markSingleUpdate]
    · cases hf : findFee db sid m <;> simp [markSingleUpdate]
    · cases hf : findFee db sid m <;> simp [markSingleUpdate]
    · cases hf : findFee db sid m <;> simp [markSingleUpdate]
  · intro status2 baseFee adv2 fut2 now2 r0
    exact ⟨by simp [markSingleUpdate], by simp [markBulkUpdate]⟩

theorem markPayment_single_paid_witness :
    (markSingleUpdate "s1" "March" "x" 7 false 3 (some paidMarchRec)).baseAmount
        = paidMarchRec.baseAmount ∧
    (markBulkUpdate "s1" "March" "x" 7 false 3 (some paidMarchRec)).baseAmount
        = paidMarchRec.baseAmount :=
  (markPayment_single_paid baseDB "s1" "March" false 0 (fun _ => false)
    studentS1 (by decide) classC1 (by decide)).2 "x" 7 false false 3
    paidMarchRec

/-- C1: IMPOSE_LATE_FINE is idempotent on the fine amount: in any state with
no paid record for (student, month), running it twice in succession without
an intervening payment leaves the record's lateFineAmount equal to what a
single run produces — the `$inc` is applied only when the existing record
has no prior nonzero lateFineAmount. -/
theorem imposeLateFine_idempotent (db : DB) (sid m : String)
    (hsid : sid ≠ "") (hm : m ≠ "")
    (st : Student) (hst : findStudent db sid = some st)
    (cls : AcademicClass) (hcls : findClass db st.studentClass = some cls)
    (hnp : ∀ r, findFee db sid m = some r → r.status ≠ "paid") :
    (findFee (IMPOSE_LATE_FINE (IMPOSE_LATE_FINE db sid m).1 sid m).1
        sid m).map (fun r => r.lateFineAmount)
      = (findFee (IMPOSE_LATE_FINE db sid m).1 sid m).map
        (fun r => r.lateFineAmount) := by
  have hrun1 := impose_run db sid m hsid hm st hst cls hcls hnp
  have hkeys1 := imposeUpdate_keys sid m (imposeClassFee cls)
    (imposeLateFineAmt cls) (findFee db sid m) (fun r h => findFee_keys h)
  have hdb1 : (IMPOSE_LATE_FINE db sid m).1
      = putFee db sid m (imposeUpdate sid m (imposeClassFee cls)
          (imposeLateFineAmt cls) (findFee db sid m)) := by
    rw [hrun1]
  have hfind1 : findFee (putFee db sid m (imposeUpdate sid m
        (imposeClassFee cls) (imposeLateFineAmt cls) (findFee db sid m)))
        sid m
      = some (imposeUpdate sid m (imposeClassFee cls) (imposeLateFineAmt cls)
          (findFee db sid m)) :=
    findFee_putFee_self db sid m _ hkeys1.1 hkeys1.2
  have hst2 : findStudent (putFee db sid m (imposeUpdate sid m
        (imposeClassFee cls) (imposeLateFineAmt cls) (findFee db sid m)))
        sid = some st := by
    rw [findStudent_putFee]
    exact hst
  have hcls2 : findClass (putFee db sid m (imposeUpdate sid m
        (imposeClassFee cls) (imposeLateFineAmt cls) (findFee db sid m)))
        st.studentClass = some cls := by
    rw [findClass_putFee]
    exact hcls
  have hnp2 : ∀ r, findFee (putFee db sid m (imposeUpdate sid m
        (imposeClassFee cls) (imposeLateFineAmt cls) (findFee db sid m)))
        sid m = some r → r.status ≠ "paid" := by
    intro r h
    rw [hfind1] at h
    cases h
    rw [imposeUpdate_status]
    cases hf : findFee db sid m with
    | none => simp
    | some r0 => simpa using hnp r0 hf
  have hrun2 := impose_run _ sid m hsid hm st hst2 cls hcls2 hnp2
  have hkeys2 := imposeUpdate_keys sid m (imposeClassFee cls)
    (imposeLateFineAmt cls)
    (findFee (putFee db sid m (imposeUpdate sid m (imposeClassFee cls)
      (imposeLateFineAmt cls) (findFee db sid m))) sid m)
    (fun r h => findFee_keys h)
  rw [hdb1, hrun2]
  show (findFee (putFee _ sid m _) sid m).map _ = _
  rw [findFee_putFee_self _ sid m _ hkeys2.1 hkeys2.2, hfind1]
  exact congrArg some (imposeUpdate_twice_amount sid m (imposeClassFee cls)
    (imposeLateFineAmt cls) (findFee db sid m))

theorem imposeLateFine_idempotent_witness :
    (findFee (IMPOSE_LATE_FINE (IMPOSE_LATE_FINE baseDB "s1" "March").1
        "s1" "March").1 "s1" "March").map (fun r => r.lateFineAmount)
      = (findFee (IMPOSE_LATE_FINE baseDB "s1" "March").1 "s1" "March").map
        (fun r => r.lateFineAmount) :=
  imposeLateFine_idempotent baseDB "s1" "March" (by decide) (by decide)
    studentS1 (by decide) classC1 (by decide)
    (fun r h => by simp [show findFee baseDB "s1" "March" = none from rfl] at h)

/-- C6 (amended): the bulk per-month upsert sets finePaid unconditionally
while the single-month upsert sets it only when status is "paid"; this
asymmetry and the advance-payment determination (single-month mode infers
isAdvancePayment from a future month date, bulk mode only honors the
explicit flag) are the only per-month differences between bulk marking and
single-month marking — the two records agree on every other field. -/
theorem markPayment_finePaid_asymmetry (sid m status : String) (baseFee : Nat)
    (isAdv isFuture : Bool) (now : Nat) (existing : Option FeeRecord) :
    (markBulkUpdate sid m status baseFee isAdv now existing).finePaid
        = some true ∧
    (status = "paid" →
      (markSingleUpdate sid m status baseFee isFuture now existing).finePaid
        = some true) ∧
    (status ≠ "paid" →
      (markSingleUpdate sid m status baseFee isFuture now existing).finePaid
        = (match existing with
           | some r => r.finePaid
           | none => none)) ∧
    (markBulkUpdate sid m status baseFee isAdv now existing).student
      = (markSingleUpdate sid m status baseFee isFuture now existing).student ∧
    (markBulkUpdate sid m status baseFee isAdv now existing).month
      = (markSingleUpdate sid m status baseFee isFuture now existing).month ∧
    (markBulkUpdate sid m status baseFee isAdv now existing).status
      = (markSingleUpdate sid m status baseFee isFuture now existing).status ∧
    (markBulkUpdate sid m status baseFee isAdv now existing).baseAmount
      = (markSingleUpdate sid m status baseFee isFuture now
          existing).baseAmount ∧
    (markBulkUpdate sid m status baseFee isAdv now existing).lateFineAmount
      = (markSingleUpdate sid m status baseFee isFuture now
          existing).lateFineAmount ∧
    (markBulkUpdate sid m status baseFee isAdv now existing).lateFine
      = (markSingleUpdate sid m status baseFee isFuture now
          existing).lateFine ∧
    (markBulkUpdate sid m status baseFee isAdv now existing).paymentDate
      = (markSingleUpdate sid m status baseFee isFuture now
          existing).paymentDate := by
  cases existing with
  | none =>
    refine ⟨rfl, fun h => ?_, fun h => ?_, rfl, rfl, rfl, rfl, rfl, rfl, rfl⟩
    · simp [markSingleUpdate, h]
    · have h' : (status == "paid") = false := by simpa using h
      simp [markSingleUpdate, h']
  | some r =>
    refine ⟨rfl, fun h => ?_, fun h => ?_, rfl, rfl, rfl, rfl, rfl, rfl, rfl⟩
    · simp [markSingleUpdate, h]
    · have h' : (status == "paid") = false := by simpa using h
      simp [markSingleUpdate, h']

theorem markPayment_finePaid_asymmetry_witness :
    (markSingleUpdate "s1" "March" "paid" 500 true 0 none).finePaid
        = some true ∧
    (markSingleUpdate "s1" "March" "not paid" 500 true 0 none).finePaid
        = none ∧
    (markBulkUpdate "s1" "March" "not paid" 500 false 0 none).finePaid
        = some true :=
  ⟨(markPayment_finePaid_asymmetry "s1" "March" "paid" 500 false true 0
      none).2.1 rfl,
   (markPayment_finePaid_asymmetry "s1" "March" "not paid" 500 false true 0
      none).2.2.1 (by decide),
   (markPayment_finePaid_asymmetry "s1" "March" "not paid" 500 false false 0
      none).1⟩

/-- C6 counterexample: with status "paid", no explicit advance flag, and a
month whose first-of-month date lies after the current date, the bulk and
single-month runs produce records that agree on finePaid yet differ on
isAdvancePayment (absent vs true) — so the finePaid asymmetry is not the
only per-month difference between bulk and single-month marking. -/
theorem markPayment_bulk_single_counterexample :
    (findFee (MARK_FEE_PAYMENT_STATUS baseDB "s1" (.bulk ["March"]) "paid"
        false 0 (fun _ => true)).1 "s1" "March").map (fun r => r.finePaid)
      = (findFee (MARK_FEE_PAYMENT_STATUS baseDB "s1" (.single "March")
        "paid" false 0 (fun _ => true)).1 "s1" "March").map
        (fun r => r.finePaid)
    ∧ (findFee (MARK_FEE_PAYMENT_STATUS baseDB "s1" (.bulk ["March"]) "paid"
        false 0 (fun _ => true)).1 "s1" "March").map
        (fun r => r.isAdvancePayment)
      ≠ (findFee (MARK_FEE_PAYMENT_STATUS baseDB "s1" (.single "March")
        "paid" false 0 (fun _ => true)).1 "s1" "March").map
        (fun r => r.isAdvancePayment) := by
  decide

/-- C3: reassigning a student to a different class through UPDATE_STUDENT
never succeeds: the class-update branch evaluates the undefined identifier
`Class` (the module imports the class model as `StudentAcademicClass`), so
the handler throws a ReferenceError, aborts the transaction, and returns a
500 error with the store unchanged — the membership arrays and the
student's `studentClass` are never updated. -/
theorem updateStudent_reassign_throws :
    UPDATE_STUDENT twoClassDB "s1"
      { name := none, studentClass := some "c2", sectionLabel := none,
        grade := none, subjects := none, parentContact := none,
        parentName := none }
      = (twoClassDB, .error ⟨500, "Class is not defined"⟩) := rfl

/-- C8: every mutating workflow (student registration, student update, fee
marking, fine imposition) that returns an error returns the store exactly
as it was before the call: each error is thrown inside the transaction and
aborts it before the commit, so no partial state is persisted. -/
theorem mutating_ops_abort_on_error :
    (∀ (db : DB) (newId name email cid : String),
      isErr (REGISTER_STUDENT db newId name email cid).2 = true →
        (REGISTER_STUDENT db newId name email cid).1 = db) ∧
    (∀ (db : DB) (sid : String) (b : UpdateStudentBody),
      isErr (UPDATE_STUDENT db sid b).2 = true →
        (UPDATE_STUDENT db sid b).1 = db) ∧
    (∀ (db : DB) (sid status : String) (months : MonthsArg) (adv : Bool)
        (now : Nat) (oracle : String → Bool),
      isErr (MARK_FEE_PAYMENT_STATUS db sid months status adv now
          oracle).2 = true →
        (MARK_FEE_PAYMENT_STATUS db sid months status adv now oracle).1
          = db) ∧
    (∀ (db : DB) (sid m : String),
      isErr (IMPOSE_LATE_FINE db sid m).2 = true →
        (IMPOSE_LATE_FINE db sid m).1 = db) := by
  refine ⟨?_, ?_, ?_, ?_⟩
  · intro db newId name email cid h
    unfold REGISTER_STUDENT at h ⊢
    cases h1 : db.students.find? (fun s => s.email == email) with
    | some s => rfl
    | none =>
      cases h2 : findClass db cid with
      | none => simp [h1, h2]
      | some c =>
        cases h3 : findStudent { db with
            students := db.students ++ [newStudentDoc newId name email cid] }
            newId with
        | none => simp [h1, h2, h3]
        | some created => simp [h1, h2, h3, isErr] at h
  · intro db sid b h
    unfold UPDATE_STUDENT at h ⊢
    by_cases h0 : (b.name.isNone && b.studentClass.isNone &&
        b.sectionLabel.isNone && b.grade.isNone && b.subjects.isNone &&
        b.parentContact.isNone && b.parentName.isNone) = true
    · rw [if_pos h0]
    · rw [if_neg h0] at h ⊢
      cases h1 : findStudent db sid with
      | none => simp [h1]
      | some st =>
        cases hc : b.studentClass with
        | none => simp [h1, hc, isErr, updateStudentRest_snd] at h
        | some nc =>
          by_cases hne : nc ≠ st.studentClass
          · simp [h1, hc, hne]
          · simp [h1, hc, hne, isErr, updateStudentRest_snd] at h
  · intro db sid status months adv now oracle h
    unfold MARK_FEE_PAYMENT_STATUS at h ⊢
    cases h1 : findStudent db sid with
    | none => simp [h1]
    | some st =>
      cases h2 : findClass db st.studentClass with
      | none => simp [h1, h2]
      | some cls =>
        cases months with
        | bulk ms => simp [h1, h2, isErr] at h
        | single mo => simp [h1, h2, isErr] at h
        | other => simp [h1, h2]
  · intro db sid m h
    unfold IMPOSE_LATE_FINE at h ⊢
    by_cases h0 : (sid == "" || m == "") = true
    · rw [if_pos h0]
    · rw [if_neg h0] at h ⊢
      cases h1 : findStudent db sid with
      | none => simp [h1]
      | some st =>
        cases h2 : findClass db st.studentClass with
        | none => simp [h1, h2]
        | some cls =>
          cases hf : findFee db sid m with
          | none => simp [h1, h2, hf, isErr] at h
          | some r =>
            by_cases hp : r.status = "paid"
            · simp [h1, h2, hf, hp]
            · simp [h1, h2, hf, hp, isErr] at h

theorem mutating_ops_abort_on_error_witness :
    (REGISTER_STUDENT baseDB "s2" "Brin" "s1@example.com" "c1").1 = baseDB ∧
    (UPDATE_STUDENT baseDB "s1"
      { name := none, studentClass := none, sectionLabel := none,
        grade := none, subjects := none, parentContact := none,
        parentName := none }).1 = baseDB ∧
    (MARK_FEE_PAYMENT_STATUS baseDB "zz" (.single "March") "paid" false 0
      (fun _ => false)).1 = baseDB ∧
    (IMPOSE_LATE_FINE baseDB "" "March").1 = baseDB :=
  ⟨mutating_ops_abort_on_error.1 baseDB "s2" "Brin" "s1@example.com" "c1"
     (by decide),
   mutating_ops_abort_on_error.2.1 baseDB "s1" _ (by decide),
   mutating_ops_abort_on_error.2.2.1 baseDB "zz" "paid" (.single "March")
     false 0 (fun _ => false) (by decide),
   mutating_ops_abort_on_error.2.2.2 baseDB "" "March" (by decide)⟩

end Katlicherra
